import Mathlib

/-!
# Verification of the reference flow `verify_flows.py`

This file gives a shallow embedding of the test script `src/verify_flows.py`.
The script is a linear sequence of HTTP requests against a monitoring API:
login, create credential profile, create discovery profile, create monitor,
update credential, delete monitor, with fixed 2-second sleeps between the
propagation-triggering mutations.

The embedding models the script as a deterministic function of the sequence
of HTTP responses the server produces: `runFlow : List Response → FlowResult`.
The result carries the full trace of observable events (warning suppression,
log lines, issued HTTP requests, sleeps) and the final outcome (normal
termination, `fail()` with exit code 1, or an uncaught exception).

Modelling conventions, each matching a Python construct in the source:
* `requests.post/put/delete` consumes the next response from the list; an
  exhausted list models a raised connection exception.
* `resp.json()["k"]` is `Response.jsonField`: `none` models the exception
  raised when the body is not JSON or the key is missing.  Inside the login
  `try` block an exception leads to `fail(...)`; outside any `try` block
  (all later steps) it leads to an uncaught crash, exactly as in Python.
* `sys.exit(1)` raises `SystemExit`, which `except Exception` does not
  catch, so `fail` inside the login `try` block still terminates the run.
* The text of a caught exception object is not modelled; the event for the
  login-exception path uses the fixed message "Login exception" (the claims
  only ever inspect the "[TEST] FAILED: " discriminant of such messages).
* `pyStr` models Python string interpolation of the scalar id / token
  values into f-strings; its value on non-scalar JSON is irrelevant to
  every theorem below (ids are treated opaquely).
-/

/-- JSON values, as far as the script manipulates them. -/
inductive Json where
  | str : String → Json
  | num : Nat → Json
  | bool : Bool → Json
  | obj : List (String × Json) → Json

/-- Lookup of a key in a JSON object literal (the script only builds
literals with distinct keys, so first-match lookup is exact). -/
def lookupField : List (String × Json) → String → Option Json
  | [], _ => none
  | (k, v) :: rest, key => if k = key then some v else lookupField rest key

/-- `j["key"]` on a JSON value: `none` models the raised
`KeyError`/`TypeError` when `j` is not an object or lacks the key. -/
def Json.getField : Json → String → Option Json
  | .obj fields, key => lookupField fields key
  | _, _ => none

/-- The keys of a JSON object, in order: the request "shape" of a payload. -/
def Json.keys : Json → List String
  | .obj fields => fields.map Prod.fst
  | _ => []

/-- Python `str()` as used by the script's f-strings on scalar values. -/
def pyStr : Json → String
  | .str s => s
  | .num n => toString n
  | .bool b => if b then "True" else "False"
  | .obj _ => ""

/-- HTTP methods used by the script. -/
inductive Method where
  | post
  | put
  | delete
deriving DecidableEq

/-- One HTTP request as issued by `requests.post/put/delete`:
method, URL, optional JSON body (`json=` argument), the `headers=`
argument (empty list when absent), and the `verify=` argument. -/
structure Request where
  method : Method
  url : String
  body : Option Json
  headers : List (String × String)
  verify : Bool

/-- One HTTP response as observed by the script: `status_code`,
`json()` (none when the body is not JSON) and `text`. -/
structure Response where
  status : Nat
  body : Option Json
  text : String

/-- `resp.json()["key"]`: `none` models the raised exception. -/
def Response.jsonField (r : Response) (key : String) : Option Json :=
  r.body.bind (fun j => j.getField key)

/-- Observable events of a run, in program order. -/
inductive Event where
  | disableWarnings
  | log : String → Event
  | request : Request → Event
  | sleep : Nat → Event

/-- Final outcome of a run: normal termination, `fail()` (printing a FAILED
line and exiting with code 1), or an uncaught exception. -/
inductive Outcome where
  | success
  | failed : String → Outcome
  | crashed
deriving DecidableEq

/-- Trace plus outcome of one run of the script. -/
structure FlowResult where
  trace : List Event
  outcome : Outcome

def BASE_URL : String := "https://localhost:8080/api/v1"

/-- Body of the login request (line 21). -/
def login_payload : Json := .obj
  [("username", .str "admin"), ("password", .str "Admin@123")]

/-- `cred_payload` (lines 32-37). -/
def cred_payload : Json := .obj
  [("name", .str "Test WinRM Creds"),
   ("description", .str "Created by test script"),
   ("protocol", .str "winrm"),
   ("payload", .obj [("username", .str "Administrator"),
                     ("password", .str "Password123!")])]

/-- `disc_payload` (lines 46-52), parametric in the extracted `cred_id`. -/
def disc_payload (cred_id : Json) : Json := .obj
  [("name", .str "Test Discovery"),
   ("target_value", .str "192.168.1.10"),
   ("credential_profile_id", cred_id),
   ("port", .num 5985),
   ("auto_run", .bool false)]

/-- `mon_payload` (lines 61-68), parametric in the extracted ids. -/
def mon_payload (cred_id disc_id : Json) : Json := .obj
  [("ip_address", .str "192.168.1.10"),
   ("plugin_id", .str "windows-winrm"),
   ("credential_profile_id", cred_id),
   ("discovery_profile_id", disc_id),
   ("polling_interval_seconds", .num 30),
   ("status", .str "active")]

/-- `update_cred_payload` (lines 80-85). -/
def update_cred_payload : Json := .obj
  [("name", .str "Test WinRM Creds Updated"),
   ("description", .str "Updated by test script"),
   ("protocol", .str "winrm"),
   ("payload", .obj [("username", .str "Administrator"),
                     ("password", .str "NewPassword123!")])]

/-- `headers = {"Authorization": f"Bearer {token}"}` (line 25). -/
def bearerHeaders (token : Json) : List (String × String) :=
  [("Authorization", "Bearer " ++ pyStr token)]

/-- The login request (line 21): no headers argument. -/
def loginReq : Request :=
  ⟨.post, BASE_URL ++ "/login", some login_payload, [], false⟩

/-- The credential-creation request (line 38). -/
def credCreateReq (hs : List (String × String)) : Request :=
  ⟨.post, BASE_URL ++ "/credentials", some cred_payload, hs, false⟩

/-- The discovery-creation request (line 53). -/
def discCreateReq (hs : List (String × String)) (cred_id : Json) : Request :=
  ⟨.post, BASE_URL ++ "/discoveries", some (disc_payload cred_id), hs, false⟩

/-- The monitor-creation request (line 69). -/
def monCreateReq (hs : List (String × String)) (cred_id disc_id : Json) :
    Request :=
  ⟨.post, BASE_URL ++ "/monitors", some (mon_payload cred_id disc_id), hs,
   false⟩

/-- The credential-update request (line 86). -/
def credUpdateReq (hs : List (String × String)) (cred_id : Json) : Request :=
  ⟨.put, BASE_URL ++ "/credentials/" ++ pyStr cred_id,
   some update_cred_payload, hs, false⟩

/-- The monitor-deletion request (line 96): no JSON body. -/
def monDeleteReq (hs : List (String × String)) (mon_id : Json) : Request :=
  ⟨.delete, BASE_URL ++ "/monitors/" ++ pyStr mon_id, none, hs, false⟩

/-- The event printed by `fail(msg)` (lines 14-16). -/
def failLog (msg : String) : Event := .log ("[TEST] FAILED: " ++ msg)

/-- The whole script, line by line, as a function of the responses the
server returns (consumed in request order).  See the module docstring for
the modelling conventions. -/
def runFlow (responses : List Response) : FlowResult :=
  -- lines 7-21: disable warnings, log, issue the login POST
  let t1 : List Event :=
    [.disableWarnings, .log "[TEST] Logging in...", .request loginReq]
  match responses with
  | [] =>
    -- connection exception, caught at line 27: fail("Login exception: ...")
    ⟨t1 ++ [failLog "Login exception"], .failed "Login exception"⟩
  | r1 :: rest1 =>
    if r1.status ≠ 200 then
      -- line 23
      ⟨t1 ++ [failLog ("Login failed: " ++ r1.text)],
       .failed ("Login failed: " ++ r1.text)⟩
    else
      match r1.jsonField "token" with
      | none =>
        -- line 24 raised, caught at line 27
        ⟨t1 ++ [failLog "Login exception"], .failed "Login exception"⟩
      | some token =>
        -- lines 25-38
        let hs := bearerHeaders token
        let t2 := t1 ++ [.log "[TEST] Login successful.",
                         .log "[TEST] Creating Credential Profile...",
                         .request (credCreateReq hs)]
        match rest1 with
        | [] => ⟨t2, .crashed⟩
        | r2 :: rest2 =>
          if r2.status ≠ 201 then
            -- line 40
            ⟨t2 ++ [failLog ("Create Credential failed: " ++ r2.text)],
             .failed ("Create Credential failed: " ++ r2.text)⟩
          else
            match r2.jsonField "id" with
            | none => ⟨t2, .crashed⟩  -- line 41 raised, uncaught
            | some cred_id =>
              -- lines 42-53
              let t3 := t2 ++
                [.log ("[TEST] Credential created: " ++ pyStr cred_id),
                 .log "[TEST] Creating Discovery Profile...",
                 .request (discCreateReq hs cred_id)]
              match rest2 with
              | [] => ⟨t3, .crashed⟩
              | r3 :: rest3 =>
                if r3.status ≠ 201 then
                  -- line 55
                  ⟨t3 ++ [failLog ("Create Discovery failed: " ++ r3.text)],
                   .failed ("Create Discovery failed: " ++ r3.text)⟩
                else
                  match r3.jsonField "id" with
                  | none => ⟨t3, .crashed⟩  -- line 56 raised, uncaught
                  | some disc_id =>
                    -- lines 57-69
                    let t4 := t3 ++
                      [.log ("[TEST] Discovery profile created: " ++
                             pyStr disc_id),
                       .log
                        "[TEST] Creating Monitor (Triggers: Add Monitor Flow)...",
                       .request (monCreateReq hs cred_id disc_id)]
                    match rest3 with
                    | [] => ⟨t4, .crashed⟩
                    | r4 :: rest4 =>
                      if r4.status ≠ 201 then
                        -- line 71
                        ⟨t4 ++
                          [failLog ("Create Monitor failed: " ++ r4.text)],
                         .failed ("Create Monitor failed: " ++ r4.text)⟩
                      else
                        match r4.jsonField "id" with
                        | none => ⟨t4, .crashed⟩  -- line 72 raised, uncaught
                        | some mon_id =>
                          -- lines 73-86: log, sleep(2), log, PUT
                          let t5 := t4 ++
                            [.log ("[TEST] Monitor created: " ++ pyStr mon_id),
                             .sleep 2,
                             .log
                              "[TEST] Updating Credential (Triggers: Update Credential Flow)...",
                             .request (credUpdateReq hs cred_id)]
                          match rest4 with
                          | [] => ⟨t5, .crashed⟩
                          | r5 :: rest5 =>
                            if r5.status ≠ 200 then
                              -- line 88
                              ⟨t5 ++
                                [failLog
                                  ("Update Credential failed: " ++ r5.text)],
                               .failed
                                ("Update Credential failed: " ++ r5.text)⟩
                            else
                              -- lines 89-96: log, sleep(2), log, DELETE
                              let t6 := t5 ++
                                [.log "[TEST] Credential updated.",
                                 .sleep 2,
                                 .log
                                  "[TEST] Deleting Monitor (Triggers: Delete Monitor Flow)...",
                                 .request (monDeleteReq hs mon_id)]
                              match rest5 with
                              | [] => ⟨t6, .crashed⟩
                              | r6 :: _ =>
                                if r6.status ≠ 204 then
                                  -- line 98
                                  ⟨t6 ++
                                    [failLog
                                      ("Delete Monitor failed: " ++ r6.text)],
                                   .failed
                                    ("Delete Monitor failed: " ++ r6.text)⟩
                                else
                                  -- lines 99-104: log, sleep(2), final log
                                  ⟨t6 ++
                                    [.log "[TEST] Monitor deleted.",
                                     .sleep 2,
                                     .log
                                      "[TEST] All steps completed successfully."],
                                   .success⟩

/-- The HTTP requests of a trace, in issue order. -/
def httpRequests (es : List Event) : List Request :=
  es.filterMap fun e => match e with | .request q => some q | _ => none

/-- The sleep durations of a trace, in order. -/
def sleepsOf (es : List Event) : List Nat :=
  es.filterMap fun e => match e with | .sleep n => some n | _ => none

/-- The `i`-th HTTP request issued by the run (0-based, issue order). -/
def reqAt (rs : List Response) (i : Nat) : Option Request :=
  (httpRequests (runFlow rs).trace).get? i

/-- Status of the `i`-th response the server supplied (0-based). -/
def statusAt (rs : List Response) (i : Nat) : Option Nat :=
  (rs.get? i).map Response.status

/-- The `id` field of the `i`-th response's JSON body. -/
def idAt (rs : List Response) (i : Nat) : Option Json :=
  (rs.get? i).bind (fun r => r.jsonField "id")

/-- The `token` field of the login response's JSON body. -/
def tokenOf (rs : List Response) : Option Json :=
  (rs.get? 0).bind (fun r => r.jsonField "token")

/-- The request carried by an event, if any. -/
def Event.asRequest : Event → Option Request
  | .request q => some q
  | _ => none

/-- The complete trace of a fully successful run, parametric in the values
the server returned. -/
def happyTrace (token cred_id disc_id mon_id : Json) : List Event :=
  [.disableWarnings,
   .log "[TEST] Logging in...",
   .request loginReq,
   .log "[TEST] Login successful.",
   .log "[TEST] Creating Credential Profile...",
   .request (credCreateReq (bearerHeaders token)),
   .log ("[TEST] Credential created: " ++ pyStr cred_id),
   .log "[TEST] Creating Discovery Profile...",
   .request (discCreateReq (bearerHeaders token) cred_id),
   .log ("[TEST] Discovery profile created: " ++ pyStr disc_id),
   .log "[TEST] Creating Monitor (Triggers: Add Monitor Flow)...",
   .request (monCreateReq (bearerHeaders token) cred_id disc_id),
   .log ("[TEST] Monitor created: " ++ pyStr mon_id),
   .sleep 2,
   .log "[TEST] Updating Credential (Triggers: Update Credential Flow)...",
   .request (credUpdateReq (bearerHeaders token) cred_id),
   .log "[TEST] Credential updated.",
   .sleep 2,
   .log "[TEST] Deleting Monitor (Triggers: Delete Monitor Flow)...",
   .request (monDeleteReq (bearerHeaders token) mon_id),
   .log "[TEST] Monitor deleted.",
   .sleep 2,
   .log "[TEST] All steps completed successfully."]

/-- A server behaviour that satisfies every step of the flow. -/
def wGood : List Response :=
  [⟨200, some (.obj [("token", .str "tok")]), ""⟩,
   ⟨201, some (.obj [("id", .num 1)]), ""⟩,
   ⟨201, some (.obj [("id", .num 2)]), ""⟩,
   ⟨201, some (.obj [("id", .num 3)]), ""⟩,
   ⟨200, none, ""⟩,
   ⟨204, none, ""⟩]

/-- A server behaviour whose credential update (5th request) fails. -/
def wBadPut : List Response :=
  [⟨200, some (.obj [("token", .str "tok")]), ""⟩,
   ⟨201, some (.obj [("id", .num 1)]), ""⟩,
   ⟨201, some (.obj [("id", .num 2)]), ""⟩,
   ⟨201, some (.obj [("id", .num 3)]), ""⟩,
   ⟨500, none, "boom"⟩]

/-- A server behaviour whose monitor deletion (6th request) fails. -/
def wBadDel : List Response :=
  [⟨200, some (.obj [("token", .str "tok")]), ""⟩,
   ⟨201, some (.obj [("id", .num 1)]), ""⟩,
   ⟨201, some (.obj [("id", .num 2)]), ""⟩,
   ⟨201, some (.obj [("id", .num 3)]), ""⟩,
   ⟨200, none, ""⟩,
   ⟨500, none, "boom"⟩]

/-- A server behaviour whose monitor creation (4th request) fails. -/
def wBadMon : List Response :=
  [⟨200, some (.obj [("token", .str "tok")]), ""⟩,
   ⟨201, some (.obj [("id", .num 1)]), ""⟩,
   ⟨201, some (.obj [("id", .num 2)]), ""⟩,
   ⟨400, none, "bad monitor"⟩]

/-- A server behaviour that rejects the login. -/
def wBadLogin : List Response := [⟨401, none, "denied"⟩]

/-- A server behaviour whose login response lacks a token field. -/
def wNoToken : List Response := [⟨200, some (.obj []), ""⟩]

/-! ## Helper lemmas -/

/-- `disc_payload` references exactly the id it is built from. -/
theorem disc_payload_ref (cid : Json) :
    (disc_payload cid).getField "credential_profile_id" = some cid := by
  simp [disc_payload, Json.getField, lookupField]

/-- `mon_payload` references exactly the two ids it is built from. -/
theorem mon_payload_refs (cid did : Json) :
    (mon_payload cid did).getField "credential_profile_id" = some cid ∧
    (mon_payload cid did).getField "discovery_profile_id" = some did := by
  simp [mon_payload, Json.getField, lookupField]

/-- Field list of the monitor-creation body. -/
theorem mon_payload_keys (cid did : Json) :
    (mon_payload cid did).keys =
      ["ip_address", "plugin_id", "credential_profile_id",
       "discovery_profile_id", "polling_interval_seconds", "status"] := by
  simp [mon_payload, Json.keys]

/-- The first request of every run is the login request. -/
theorem reqAt0_login (rs : List Response) : reqAt rs 0 = some loginReq := by
  unfold reqAt runFlow
  repeat' split
  all_goals simp [httpRequests, failLog]

/-- If a second request is issued, it is the credential creation, with the
bearer headers built from the login token, and the login returned 200. -/
theorem reqAt1_cred (rs : List Response) (q : Request)
    (h : reqAt rs 1 = some q) :
    statusAt rs 0 = some 200 ∧
    (tokenOf rs).map bearerHeaders = some q.headers ∧
    q.url = BASE_URL ++ "/credentials" ∧ q.body = some cred_payload := by
  unfold reqAt runFlow at h
  repeat' split at h
  all_goals simp_all [httpRequests, statusAt, tokenOf, credCreateReq, failLog]
  all_goals subst h
  all_goals simp

/-- If a third request is issued, it is the discovery creation built from
the id of the 201 credential-creation response. -/
theorem reqAt2_discovery (rs : List Response) (q : Request)
    (h : reqAt rs 2 = some q) :
    statusAt rs 1 = some 201 ∧ idAt rs 1 ≠ none ∧
    (idAt rs 1).map disc_payload = q.body ∧
    q.url = BASE_URL ++ "/discoveries" := by
  unfold reqAt runFlow at h
  repeat' split at h
  all_goals simp_all [httpRequests, statusAt, idAt, discCreateReq, failLog]
  all_goals subst h
  all_goals simp

/-- If a fourth request is issued, it is the monitor creation built from
the ids of the two preceding 201 creation responses. -/
theorem reqAt3_monitor (rs : List Response) (q : Request)
    (h : reqAt rs 3 = some q) :
    statusAt rs 1 = some 201 ∧ statusAt rs 2 = some 201 ∧
    idAt rs 1 ≠ none ∧ idAt rs 2 ≠ none ∧
    (idAt rs 1).bind (fun cid => (idAt rs 2).map (mon_payload cid)) =
      q.body ∧
    q.method = .post ∧ q.url = BASE_URL ++ "/monitors" := by
  unfold reqAt runFlow at h
  repeat' split at h
  all_goals simp_all [httpRequests, statusAt, idAt, monCreateReq, failLog]
  all_goals subst h
  all_goals simp

/-- If a fifth request is issued, it is the credential update: a PUT of
`update_cred_payload` to the URL built from the created credential's id;
the monitor creation before it returned 201 with an id. -/
theorem reqAt4_put (rs : List Response) (q : Request)
    (h : reqAt rs 4 = some q) :
    statusAt rs 1 = some 201 ∧ statusAt rs 3 = some 201 ∧
    idAt rs 3 ≠ none ∧ q.method = .put ∧
    q.body = some update_cred_payload ∧
    (idAt rs 1).map (fun cid => BASE_URL ++ "/credentials/" ++ pyStr cid) =
      some q.url := by
  unfold reqAt runFlow at h
  repeat' split at h
  all_goals simp_all [httpRequests, statusAt, idAt, credUpdateReq, failLog]
  all_goals subst h
  all_goals simp

/-- If a sixth request is issued, it is the monitor deletion: a DELETE with
no JSON body, addressed to the id returned by the 201 monitor creation;
the credential update before it returned 200. -/
theorem reqAt5_delete (rs : List Response) (q : Request)
    (h : reqAt rs 5 = some q) :
    statusAt rs 3 = some 201 ∧ statusAt rs 4 = some 200 ∧
    q.method = .delete ∧ q.body = none ∧
    (idAt rs 3).map (fun mid => BASE_URL ++ "/monitors/" ++ pyStr mid) =
      some q.url := by
  unfold reqAt runFlow at h
  repeat' split at h
  all_goals simp_all [httpRequests, statusAt, idAt, monDeleteReq, failLog]
  all_goals subst h
  all_goals simp

/-- A monitor-creation response with a status other than 201 makes the run
fail with the corresponding message and issue no further request. -/
theorem mon_fail_aborts (rs : List Response) (q : Request) (r : Response)
    (hq : reqAt rs 3 = some q) (hr : rs.get? 3 = some r)
    (hs : r.status ≠ 201) :
    (runFlow rs).outcome = .failed ("Create Monitor failed: " ++ r.text) ∧
    reqAt rs 4 = none := by
  unfold reqAt at hq ⊢
  unfold runFlow at hq ⊢
  repeat' split at hq
  all_goals simp_all [httpRequests, failLog]

/-- A credential-update response with a status other than 200 makes the
run fail with the corresponding message and issue no further request. -/
theorem put_fail_aborts (rs : List Response) (q : Request) (r : Response)
    (hq : reqAt rs 4 = some q) (hr : rs.get? 4 = some r)
    (hs : r.status ≠ 200) :
    (runFlow rs).outcome = .failed ("Update Credential failed: " ++ r.text) ∧
    reqAt rs 5 = none := by
  unfold reqAt at hq ⊢
  unfold runFlow at hq ⊢
  repeat' split at hq
  all_goals simp_all [httpRequests, failLog]

/-- A credential-update response with status exactly 200 lets the run
continue to the monitor deletion. -/
theorem put_ok_continues (rs : List Response) (q : Request) (r : Response)
    (hq : reqAt rs 4 = some q) (hr : rs.get? 4 = some r)
    (hs : r.status = 200) :
    reqAt rs 5 ≠ none := by
  unfold reqAt at hq ⊢
  unfold runFlow at hq ⊢
  repeat' split at hq
  all_goals simp_all [httpRequests, failLog]

/-- The monitor-deletion response decides the final outcome: 204 yields
normal termination (whatever the response body is), anything else fails. -/
theorem del_status_decides (rs : List Response) (q : Request) (r : Response)
    (hq : reqAt rs 5 = some q) (hr : rs.get? 5 = some r) :
    (r.status = 204 → (runFlow rs).outcome = .success) ∧
    (r.status ≠ 204 →
      (runFlow rs).outcome =
        .failed ("Delete Monitor failed: " ++ r.text)) := by
  unfold reqAt at hq
  unfold runFlow at hq ⊢
  repeat' split at hq
  all_goals simp_all [httpRequests, failLog]

/-- A run that terminates normally produced exactly the happy trace, for
some token and ids returned by the server. -/
theorem success_shape (rs : List Response)
    (h : (runFlow rs).outcome = .success) :
    ∃ token cred_id disc_id mon_id,
      (runFlow rs).trace = happyTrace token cred_id disc_id mon_id := by
  unfold runFlow at h ⊢
  repeat' split at h
  all_goals simp_all
  exact ⟨_, _, _, _, rfl⟩

/-- Every sleep of every run lasts exactly 2 seconds. -/
theorem sleeps_all_two (rs : List Response) (n : Nat)
    (h : n ∈ sleepsOf (runFlow rs).trace) : n = 2 := by
  unfold runFlow at h
  repeat' split at h
  all_goals simp_all [sleepsOf, failLog]

/-- No run sleeps more than three times. -/
theorem sleeps_le_three (rs : List Response) :
    (sleepsOf (runFlow rs).trace).length ≤ 3 := by
  unfold runFlow
  repeat' split
  all_goals simp [sleepsOf, failLog]

/-- Positions of the sleeps in the happy trace: one right after the
monitor-creation step (request event at index 11), one right after the
credential-update step (request event at index 15), one right after the
monitor-deletion step (request event at index 19), and no others. -/
theorem happyTrace_sleep_positions (token cred_id disc_id mon_id : Json) :
    sleepsOf (happyTrace token cred_id disc_id mon_id) = [2, 2, 2] ∧
    (happyTrace token cred_id disc_id mon_id).get? 13 = some (.sleep 2) ∧
    (happyTrace token cred_id disc_id mon_id).get? 17 = some (.sleep 2) ∧
    (happyTrace token cred_id disc_id mon_id).get? 21 = some (.sleep 2) ∧
    (((happyTrace token cred_id disc_id mon_id).get? 11).bind
        Event.asRequest).map Request.url =
      some (BASE_URL ++ "/monitors") ∧
    (((happyTrace token cred_id disc_id mon_id).get? 15).bind
        Event.asRequest).map Request.method = some .put ∧
    (((happyTrace token cred_id disc_id mon_id).get? 19).bind
        Event.asRequest).map Request.method = some .delete :=
  ⟨rfl, rfl, rfl, rfl, rfl, rfl, rfl⟩

/-! ## Claims -/

/-- C1: the reference flow establishes referential integrity by
construction order: whenever the discovery-creation request is issued, its
body is `disc_payload` of the id returned by the earlier credential
creation, which returned 201; whenever the monitor-creation request is
issued, its body is `mon_payload` of the ids returned by the earlier
credential and discovery creations, both of which returned 201; and those
payloads reference exactly those ids. -/
theorem C1_referential_integrity (rs : List Response) :
    (∀ q, reqAt rs 2 = some q →
       statusAt rs 1 = some 201 ∧ idAt rs 1 ≠ none ∧
       (idAt rs 1).map disc_payload = q.body ∧
       q.url = BASE_URL ++ "/discoveries") ∧
    (∀ q, reqAt rs 3 = some q →
       statusAt rs 1 = some 201 ∧ statusAt rs 2 = some 201 ∧
       idAt rs 1 ≠ none ∧ idAt rs 2 ≠ none ∧
       (idAt rs 1).bind (fun cid => (idAt rs 2).map (mon_payload cid)) =
         q.body ∧
       q.method = .post ∧ q.url = BASE_URL ++ "/monitors") ∧
    (∀ cid, (disc_payload cid).getField "credential_profile_id" =
       some cid) ∧
    (∀ cid did,
       (mon_payload cid did).getField "credential_profile_id" = some cid ∧
       (mon_payload cid did).getField "discovery_profile_id" = some did) :=
  ⟨fun q h => reqAt2_discovery rs q h, fun q h => reqAt3_monitor rs q h,
   disc_payload_ref, mon_payload_refs⟩

/-- C2: the credential update is a PUT of a body with the same field set
as the creation body ({name, description, protocol, payload}), addressed
to the id returned by the credential creation; the flow aborts with a
FAILED outcome unless the response status is exactly 200, in which case it
continues to the monitor deletion. -/
theorem C2_update_credential (rs : List Response) :
    update_cred_payload.keys = cred_payload.keys ∧
    cred_payload.keys = ["name", "description", "protocol", "payload"] ∧
    (∀ q, reqAt rs 4 = some q →
       q.method = .put ∧ q.body = some update_cred_payload ∧
       statusAt rs 1 = some 201 ∧
       (idAt rs 1).map
           (fun cid => BASE_URL ++ "/credentials/" ++ pyStr cid) =
         some q.url) ∧
    (∀ q r, reqAt rs 4 = some q → rs.get? 4 = some r → r.status ≠ 200 →
       (runFlow rs).outcome =
         .failed ("Update Credential failed: " ++ r.text) ∧
       reqAt rs 5 = none) ∧
    (∀ q r, reqAt rs 4 = some q → rs.get? 4 = some r → r.status = 200 →
       reqAt rs 5 ≠ none) := by
  refine ⟨rfl, rfl, fun q h => ?_,
    fun q r hq hr hs => put_fail_aborts rs q r hq hr hs,
    fun q r hq hr hs => put_ok_continues rs q r hq hr hs⟩
  obtain ⟨h1, h3, hi, hm, hb, hu⟩ := reqAt4_put rs q h
  exact ⟨hm, hb, h1, hu⟩

/-- C3: the monitor creation posts a body with exactly the six fields
ip_address, plugin_id, credential_profile_id, discovery_profile_id,
polling_interval_seconds, status to /monitors; the flow aborts on any
status other than 201, continues only when the 201 response carried an id,
and uses that id for the later monitor deletion. -/
theorem C3_create_monitor (rs : List Response) :
    (∀ cid did, (mon_payload cid did).keys =
       ["ip_address", "plugin_id", "credential_profile_id",
        "discovery_profile_id", "polling_interval_seconds", "status"]) ∧
    (∀ q, reqAt rs 3 = some q →
       q.method = .post ∧ q.url = BASE_URL ++ "/monitors" ∧
       (idAt rs 1).bind (fun cid => (idAt rs 2).map (mon_payload cid)) =
         q.body) ∧
    (∀ q r, reqAt rs 3 = some q → rs.get? 3 = some r → r.status ≠ 201 →
       (runFlow rs).outcome =
         .failed ("Create Monitor failed: " ++ r.text) ∧
       reqAt rs 4 = none) ∧
    (∀ q, reqAt rs 4 = some q →
       statusAt rs 3 = some 201 ∧ idAt rs 3 ≠ none) ∧
    (∀ q, reqAt rs 5 = some q →
       (idAt rs 3).map (fun mid => BASE_URL ++ "/monitors/" ++ pyStr mid) =
         some q.url) := by
  refine ⟨mon_payload_keys, fun q h => ?_,
    fun q r hq hr hs => mon_fail_aborts rs q r hq hr hs,
    fun q h => ?_, fun q h => ?_⟩
  · obtain ⟨_, _, _, _, hb, hm, hu⟩ := reqAt3_monitor rs q h
    exact ⟨hm, hu, hb⟩
  · obtain ⟨_, h3, hi, _, _, _⟩ := reqAt4_put rs q h
    exact ⟨h3, hi⟩
  · obtain ⟨_, _, _, _, hu⟩ := reqAt5_delete rs q h
    exact hu

/-- C4: the monitor deletion is a DELETE with no JSON body, addressed to
the id returned by the 201 monitor creation; a 204 response (whatever its
body) lets the run terminate normally, any other status makes it fail. -/
theorem C4_delete_monitor (rs : List Response) :
    (∀ q, reqAt rs 5 = some q →
       q.method = .delete ∧ q.body = none ∧ statusAt rs 3 = some 201 ∧
       (idAt rs 3).map (fun mid => BASE_URL ++ "/monitors/" ++ pyStr mid) =
         some q.url) ∧
    (∀ q r, reqAt rs 5 = some q → rs.get? 5 = some r →
       (r.status = 204 → (runFlow rs).outcome = .success) ∧
       (r.status ≠ 204 →
         (runFlow rs).outcome =
           .failed ("Delete Monitor failed: " ++ r.text))) := by
  refine ⟨fun q h => ?_, fun q r hq hr => del_status_decides rs q r hq hr⟩
  obtain ⟨h3, _, hm, hb, hu⟩ := reqAt5_delete rs q h
  exact ⟨hm, hb, h3, hu⟩

/-- C5: eventual consistency is realized by fixed sleeps only: every sleep
of every run lasts exactly 2 seconds, no run sleeps more than three times,
and a successful run sleeps exactly three times, immediately after the
monitor-creation, credential-update and monitor-deletion steps (request
events at trace indices 11, 15 and 19; sleeps at 13, 17 and 21). -/
theorem C5_fixed_sleeps (rs : List Response) :
    (∀ n ∈ sleepsOf (runFlow rs).trace, n = 2) ∧
    (sleepsOf (runFlow rs).trace).length ≤ 3 ∧
    ((runFlow rs).outcome = .success →
       sleepsOf (runFlow rs).trace = [2, 2, 2] ∧
       (runFlow rs).trace.get? 13 = some (.sleep 2) ∧
       (runFlow rs).trace.get? 17 = some (.sleep 2) ∧
       (runFlow rs).trace.get? 21 = some (.sleep 2) ∧
       (((runFlow rs).trace.get? 11).bind Event.asRequest).map
           Request.url = some (BASE_URL ++ "/monitors") ∧
       (((runFlow rs).trace.get? 15).bind Event.asRequest).map
           Request.method = some .put ∧
       (((runFlow rs).trace.get? 19).bind Event.asRequest).map
           Request.method = some .delete) := by
  refine ⟨fun n h => sleeps_all_two rs n h, sleeps_le_three rs, fun h => ?_⟩
  obtain ⟨t, c, d, m, ht⟩ := success_shape rs h
  rw [ht]
  exact happyTrace_sleep_positions t c d m

/-- C6: in every run that issues both creation requests, the discovery
payload's credential_profile_id and the monitor payload's
credential_profile_id are the same id, namely the id of the single created
credential. -/
theorem C6_single_credential (rs : List Response) (qd qm : Request)
    (hd : reqAt rs 2 = some qd) (hm : reqAt rs 3 = some qm) :
    qd.body.bind (fun j => j.getField "credential_profile_id") =
      idAt rs 1 ∧
    qm.body.bind (fun j => j.getField "credential_profile_id") =
      idAt rs 1 ∧
    idAt rs 1 ≠ none := by
  obtain ⟨_, hn1, hbd, _⟩ := reqAt2_discovery rs qd hd
  obtain ⟨_, _, _, hn2, hbm, _, _⟩ := reqAt3_monitor rs qm hm
  rcases hc : idAt rs 1 with _ | cid
  · exact absurd hc hn1
  rcases hd2 : idAt rs 2 with _ | did
  · exact absurd hd2 hn2
  rw [hc] at hbd hbm
  rw [hd2] at hbm
  refine ⟨?_, ?_, by simp⟩
  · rw [← hbd]
    simp [disc_payload_ref]
  · rw [← hbm]
    simp [(mon_payload_refs cid did).1]

/-- C7: the login request carries no headers at all; every request issued
after login carries exactly the bearer headers built from the token field
of the 200 login response, and no other authentication. -/
theorem C7_bearer_auth (rs : List Response) :
    reqAt rs 0 = some loginReq ∧ loginReq.headers = [] ∧
    (∀ token, bearerHeaders token =
       [("Authorization", "Bearer " ++ pyStr token)]) ∧
    ∀ q ∈ (httpRequests (runFlow rs).trace).tail,
      statusAt rs 0 = some 200 ∧
      (tokenOf rs).map bearerHeaders = some q.headers := by
  refine ⟨reqAt0_login rs, rfl, fun _ => rfl, ?_⟩
  unfold runFlow
  repeat' split
  all_goals
    simp_all [httpRequests, statusAt, tokenOf, failLog, credCreateReq,
      discCreateReq, monCreateReq, credUpdateReq, monDeleteReq]

/-- C8: the login is a POST of {username, password} to /login; the run
aborts with a FAILED outcome (exit code 1) when the status is not 200,
when the token extraction raises, or when the request itself raises. -/
theorem C8_login_contract (rs : List Response) :
    reqAt rs 0 = some loginReq ∧
    loginReq.method = .post ∧ loginReq.url = BASE_URL ++ "/login" ∧
    loginReq.body = some login_payload ∧
    login_payload.keys = ["username", "password"] ∧
    (rs = [] → (runFlow rs).outcome = .failed "Login exception") ∧
    (∀ r rest, rs = r :: rest → r.status ≠ 200 →
       (runFlow rs).outcome = .failed ("Login failed: " ++ r.text)) ∧
    (∀ r rest, rs = r :: rest → r.status = 200 →
       r.jsonField "token" = none →
       (runFlow rs).outcome = .failed "Login exception") := by
  refine ⟨reqAt0_login rs, rfl, rfl, rfl, rfl, ?_, ?_, ?_⟩
  · rintro rfl
    rfl
  · rintro r rest rfl hs
    simp [runFlow, hs]
  · rintro r rest rfl hs ht
    simp [runFlow, hs, ht]

/-- C9: the run terminates normally (printing the final success line last)
exactly when it issued all six requests and they returned the statuses
200, 201, 201, 201, 200, 204 in order; a `fail()` outcome always makes the
FAILED line the last trace event, so no request follows a failure. -/
theorem C9_fail_fast (rs : List Response) :
    ((runFlow rs).outcome = .success ↔
      (httpRequests (runFlow rs).trace).length = 6 ∧
      (rs.take 6).map Response.status = [200, 201, 201, 201, 200, 204]) ∧
    ((runFlow rs).outcome = .success →
      (runFlow rs).trace.getLast? =
        some (.log "[TEST] All steps completed successfully.")) ∧
    (∀ m, (runFlow rs).outcome = .failed m →
      (runFlow rs).trace.getLast? = some (failLog m)) := by
  unfold runFlow
  repeat' split
  all_goals simp_all [httpRequests, failLog]

/-- C10: warning suppression is the first event of every run, and every
request of every run is issued with TLS certificate verification
disabled. -/
theorem C10_no_tls_verification (rs : List Response) :
    (runFlow rs).trace.head? = some .disableWarnings ∧
    ∀ q ∈ httpRequests (runFlow rs).trace, q.verify = false := by
  unfold runFlow
  repeat' split
  all_goals
    simp [httpRequests, loginReq, credCreateReq, discCreateReq,
          monCreateReq, credUpdateReq, monDeleteReq, failLog]

/-! ## Witnesses -/

theorem C1_witness :
    (statusAt wGood 1 = some 201 ∧ idAt wGood 1 ≠ none ∧
     (idAt wGood 1).map disc_payload =
       (discCreateReq (bearerHeaders (.str "tok")) (.num 1)).body ∧
     (discCreateReq (bearerHeaders (.str "tok")) (.num 1)).url =
       BASE_URL ++ "/discoveries") ∧
    (disc_payload (.num 1)).getField "credential_profile_id" =
      some (.num 1) :=
  ⟨(C1_referential_integrity wGood).1
     (discCreateReq (bearerHeaders (.str "tok")) (.num 1)) rfl,
   (C1_referential_integrity wGood).2.2.1 (.num 1)⟩

theorem C2_witness :
    ((credUpdateReq (bearerHeaders (.str "tok")) (.num 1)).method = .put ∧
     (credUpdateReq (bearerHeaders (.str "tok")) (.num 1)).body =
       some update_cred_payload ∧
     statusAt wGood 1 = some 201 ∧
     (idAt wGood 1).map
         (fun cid => BASE_URL ++ "/credentials/" ++ pyStr cid) =
       some (credUpdateReq (bearerHeaders (.str "tok")) (.num 1)).url) ∧
    ((runFlow wBadPut).outcome =
       .failed ("Update Credential failed: " ++ "boom") ∧
     reqAt wBadPut 5 = none) ∧
    reqAt wGood 5 ≠ none :=
  ⟨(C2_update_credential wGood).2.2.1
     (credUpdateReq (bearerHeaders (.str "tok")) (.num 1)) rfl,
   (C2_update_credential wBadPut).2.2.2.1
     (credUpdateReq (bearerHeaders (.str "tok")) (.num 1))
     ⟨500, none, "boom"⟩ rfl rfl (by decide),
   (C2_update_credential wGood).2.2.2.2
     (credUpdateReq (bearerHeaders (.str "tok")) (.num 1))
     ⟨200, none, ""⟩ rfl rfl rfl⟩

theorem C3_witness :
    (mon_payload (.num 1) (.num 2)).keys =
      ["ip_address", "plugin_id", "credential_profile_id",
       "discovery_profile_id", "polling_interval_seconds", "status"] ∧
    ((monCreateReq (bearerHeaders (.str "tok")) (.num 1) (.num 2)).method =
       .post ∧
     (monCreateReq (bearerHeaders (.str "tok")) (.num 1) (.num 2)).url =
       BASE_URL ++ "/monitors" ∧
     (idAt wGood 1).bind
         (fun cid => (idAt wGood 2).map (mon_payload cid)) =
       (monCreateReq (bearerHeaders (.str "tok")) (.num 1) (.num 2)).body) ∧
    ((runFlow wBadMon).outcome =
       .failed ("Create Monitor failed: " ++ "bad monitor") ∧
     reqAt wBadMon 4 = none) ∧
    (statusAt wGood 3 = some 201 ∧ idAt wGood 3 ≠ none) ∧
    (idAt wGood 3).map (fun mid => BASE_URL ++ "/monitors/" ++ pyStr mid) =
      some (monDeleteReq (bearerHeaders (.str "tok")) (.num 3)).url :=
  ⟨(C3_create_monitor wGood).1 (.num 1) (.num 2),
   (C3_create_monitor wGood).2.1
     (monCreateReq (bearerHeaders (.str "tok")) (.num 1) (.num 2)) rfl,
   (C3_create_monitor wBadMon).2.2.1
     (monCreateReq (bearerHeaders (.str "tok")) (.num 1) (.num 2))
     ⟨400, none, "bad monitor"⟩ rfl rfl (by decide),
   (C3_create_monitor wGood).2.2.2.1
     (credUpdateReq (bearerHeaders (.str "tok")) (.num 1)) rfl,
   (C3_create_monitor wGood).2.2.2.2
     (monDeleteReq (bearerHeaders (.str "tok")) (.num 3)) rfl⟩

theorem C4_witness :
    ((monDeleteReq (bearerHeaders (.str "tok")) (.num 3)).method =
       .delete ∧
     (monDeleteReq (bearerHeaders (.str "tok")) (.num 3)).body = none ∧
     statusAt wGood 3 = some 201 ∧
     (idAt wGood 3).map
         (fun mid => BASE_URL ++ "/monitors/" ++ pyStr mid) =
       some (monDeleteReq (bearerHeaders (.str "tok")) (.num 3)).url) ∧
    (runFlow wGood).outcome = .success ∧
    (runFlow wBadDel).outcome =
      .failed ("Delete Monitor failed: " ++ "boom") :=
  ⟨(C4_delete_monitor wGood).1
     (monDeleteReq (bearerHeaders (.str "tok")) (.num 3)) rfl,
   ((C4_delete_monitor wGood).2
     (monDeleteReq (bearerHeaders (.str "tok")) (.num 3))
     ⟨204, none, ""⟩ rfl rfl).1 rfl,
   ((C4_delete_monitor wBadDel).2
     (monDeleteReq (bearerHeaders (.str "tok")) (.num 3))
     ⟨500, none, "boom"⟩ rfl rfl).2 (by decide)⟩

theorem C5_witness :
    2 = 2 ∧
    (sleepsOf (runFlow wGood).trace = [2, 2, 2] ∧
     (runFlow wGood).trace.get? 13 = some (.sleep 2) ∧
     (runFlow wGood).trace.get? 17 = some (.sleep 2) ∧
     (runFlow wGood).trace.get? 21 = some (.sleep 2) ∧
     (((runFlow wGood).trace.get? 11).bind Event.asRequest).map
         Request.url = some (BASE_URL ++ "/monitors") ∧
     (((runFlow wGood).trace.get? 15).bind Event.asRequest).map
         Request.method = some .put ∧
     (((runFlow wGood).trace.get? 19).bind Event.asRequest).map
         Request.method = some .delete) :=
  ⟨(C5_fixed_sleeps wGood).1 2 (by decide),
   (C5_fixed_sleeps wGood).2.2 rfl⟩

theorem C6_witness :
    (discCreateReq (bearerHeaders (.str "tok")) (.num 1)).body.bind
        (fun j => j.getField "credential_profile_id") = idAt wGood 1 ∧
    (monCreateReq (bearerHeaders (.str "tok")) (.num 1)
          (.num 2)).body.bind
        (fun j => j.getField "credential_profile_id") = idAt wGood 1 ∧
    idAt wGood 1 ≠ none :=
  C6_single_credential wGood
    (discCreateReq (bearerHeaders (.str "tok")) (.num 1))
    (monCreateReq (bearerHeaders (.str "tok")) (.num 1) (.num 2)) rfl rfl

theorem C7_witness :
    reqAt wGood 0 = some loginReq ∧ loginReq.headers = [] ∧
    statusAt wGood 0 = some 200 ∧
    (tokenOf wGood).map bearerHeaders =
      some (credCreateReq (bearerHeaders (.str "tok"))).headers :=
  ⟨(C7_bearer_auth wGood).1, (C7_bearer_auth wGood).2.1,
   ((C7_bearer_auth wGood).2.2.2
     (credCreateReq (bearerHeaders (.str "tok"))) (List.Mem.head _)).1,
   ((C7_bearer_auth wGood).2.2.2
     (credCreateReq (bearerHeaders (.str "tok"))) (List.Mem.head _)).2⟩

theorem C8_witness :
    reqAt wBadLogin 0 = some loginReq ∧
    (runFlow ([] : List Response)).outcome = .failed "Login exception" ∧
    (runFlow wBadLogin).outcome =
      .failed ("Login failed: " ++ "denied") ∧
    (runFlow wNoToken).outcome = .failed "Login exception" :=
  ⟨(C8_login_contract wBadLogin).1,
   (C8_login_contract []).2.2.2.2.2.1 rfl,
   (C8_login_contract wBadLogin).2.2.2.2.2.2.1 ⟨401, none, "denied"⟩ []
     rfl (by decide),
   (C8_login_contract wNoToken).2.2.2.2.2.2.2 ⟨200, some (.obj []), ""⟩ []
     rfl rfl rfl⟩

theorem C9_witness :
    (runFlow wGood).outcome = .success ∧
    (runFlow wGood).trace.getLast? =
      some (.log "[TEST] All steps completed successfully.") ∧
    (runFlow wBadLogin).trace.getLast? =
      some (failLog ("Login failed: " ++ "denied")) :=
  ⟨(C9_fail_fast wGood).1.mpr ⟨rfl, rfl⟩,
   (C9_fail_fast wGood).2.1 rfl,
   (C9_fail_fast wBadLogin).2.2 ("Login failed: " ++ "denied") rfl⟩

theorem C10_witness :
    (runFlow wGood).trace.head? = some .disableWarnings ∧
    loginReq.verify = false :=
  ⟨(C10_no_tls_verification wGood).1,
   (C10_no_tls_verification wGood).2 loginReq (List.Mem.head _)⟩
